import Mathlib

/-!
Verification of the star-video-review AI analysis pipeline.

This file shallowly embeds the Python code of
`src/backend/services/ai_analyzer.py` (class AIAnalyzer) and
`src/backend/routes/ai_analysis.py` (the POST /api/ai/analyze/<id> handler)
and proves/refutes the frozen claims about it.

Modelling conventions:
* Python floats become `ℚ` (no value in the verified claims depends on
  binary-float rounding).
* Python strings that undergo character-level processing (strip / lower /
  slicing / substring search) become `List Char`; strings only compared
  for equality stay `String`.
* Calls to external effectful services (FFmpeg, Whisper, the OpenAI API,
  cv2 decoding, the database) are inputs of an explicit environment record:
  each call site receives the outcome (`Except`-valued for calls that can
  raise) that the external world would have produced.
* `try/except` control flow becomes explicit propagation of `Except`-style
  results through the same branch structure as the source.
-/

namespace StarVideoReview

/-! ### Python string primitives -/

/-- Python `str` whitespace for `str.strip()`: space, \t, \n, \r, \x0b, \x0c. -/
def pyIsSpace (c : Char) : Bool :=
  c = ' ' || c = '\t' || c = '\n' || c = '\r' || c = '\x0b' || c = '\x0c'

/-- Python `s.strip()`: drop whitespace from both ends. -/
def pyStrip (s : List Char) : List Char :=
  ((s.dropWhile pyIsSpace).reverse.dropWhile pyIsSpace).reverse

/-- Python `s.lower()` (ASCII-adequate for the strings in this code base). -/
def lowerChars (s : List Char) : List Char :=
  s.map Char.toLower

/-- Python `round(x, 1)`.  This rounds halves up whereas Python rounds halves
to even; no quantity in the verified claims sits on an exact half-multiple of
0.1, so the two agree on everything proved below. -/
def round1 (x : ℚ) : ℚ :=
  ((⌊10 * x + 1/2⌋ : ℤ) : ℚ) / 10

/-! ### Transcript segments and the timestamp resolver
(`routes/ai_analysis.py` lines 234–272) -/

/-- One Whisper transcript segment (`{'text': ..., 'start': ..., 'end': ...}`). -/
structure Segment where
  text : List Char
  start : ℚ
  stop : ℚ
deriving DecidableEq

/-- The matching loop of lines 244–257: scan segments in order and return the
`start` of the first segment whose stripped, lowered text contains the lowered
quote prefix (`quote_search.lower() in seg_text.lower()`). -/
def segmentMatch (quoteSearch : List Char) : List Segment → Option ℚ
  | [] => none
  | seg :: rest =>
    if lowerChars quoteSearch <:+: lowerChars (pyStrip seg.text) then
      some seg.start
    else
      segmentMatch quoteSearch rest

/-- Line 239: `quote.lower() not in ['n/a', 'na', 'none', '']` (negated). -/
def isFillerQuote (q : List Char) : Bool :=
  lowerChars q = "n/a".toList || lowerChars q = "na".toList ||
    lowerChars q = "none".toList || lowerChars q = "".toList

/-- Python truthiness of `video.duration` (`None` and `0` are falsy). -/
def durTruthy : Option ℚ → Bool
  | none => false
  | some d => d ≠ 0

/-- The numeric value of a known duration (only consulted when truthy). -/
def durVal : Option ℚ → ℚ
  | none => 0
  | some d => d

/-- Timestamp resolution for one observation, lines 234–272 of the route:
`start_time = 0.0`; quote-to-segment matching when the stripped quote is
non-empty and not a filler and segments exist; distribution fallback when the
running value is still `0.0` and the duration is truthy; final
`round(start_time, 1)`. -/
def resolveStartTime (rawQuote : List Char) (segments : List Segment)
    (duration : Option ℚ) (annIndex totalAnnotations : ℕ) : ℚ :=
  let quote := pyStrip rawQuote
  let start1 : ℚ :=
    if segments ≠ [] ∧ quote ≠ [] ∧ isFillerQuote quote = false then
      match segmentMatch (quote.take 100) segments with
      | some s => s
      | none => 0
    else 0
  let start2 : ℚ :=
    if start1 = 0 ∧ durTruthy duration = true then
      if 1 < totalAnnotations then
        (annIndex : ℚ) / ((max 1 (totalAnnotations - 1) : ℕ) : ℚ) * durVal duration
      else 0
    else start1
  round1 start2

/-! ### Frame sampling (`services/ai_analyzer.py`)

Timestamps/frame indices are modelled; the pixel payload of a frame is
abstracted away except for the resize/encode step, whose dimension
arithmetic is `resizeDims` below.  `readOk` is the environment's verdict on
each `video.read()` at the given index/timestamp. -/

/-- The resize at lines 222–228 / 297–303 / 382–388 (identical in all three
strategies): if the width exceeds 800 px, scale to width 800 with
`new_height = int(height * 800 / width)`; otherwise leave the frame alone. -/
def resizeDims (w h : ℕ) : ℕ × ℕ :=
  if 800 < w then (800, h * 800 / w) else (w, h)

/-- Lines 231 / 306 / 391: `cv2.imencode('.jpg', frame, [IMWRITE_JPEG_QUALITY, 85])`. -/
def jpegQuality : ℕ := 85

/-- The `while` loop of `extract_frames` (lines 215–240).  The loop reads
frames sequentially; `remaining` enumerates the indices the decoder can still
deliver (so an exhausted decoder, or `readOk` false, is the `ret == False`
break).  A frame index is kept when it is a multiple of `frameInterval` and
fewer than `numFrames` frames have been kept so far. -/
def extractFramesGo (readOk : ℕ → Bool) (frameInterval numFrames : ℕ)
    (extracted : ℕ) : List ℕ → List ℕ
  | [] => []
  | frameCount :: rest =>
    if extracted < numFrames then
      if readOk frameCount then
        if frameCount % frameInterval = 0 then
          frameCount :: extractFramesGo readOk frameInterval numFrames (extracted + 1) rest
        else
          extractFramesGo readOk frameInterval numFrames extracted rest
      else []
    else []

/-- `AIAnalyzer.extract_frames` (lines 185–248), uniform-count strategy,
returning the kept frame indices.  `numFrames = 0` makes
`total_frames // num_frames` raise `ZeroDivisionError`, caught at line 246
and turned into `[]`. -/
def extract_frames (cv2Available : Bool) (readOk : ℕ → Bool)
    (totalFrames numFrames : ℕ) : List ℕ :=
  if !cv2Available then []
  else if numFrames = 0 then []
  else
    extractFramesGo readOk (max 1 (totalFrames / numFrames)) numFrames 0
      (List.range totalFrames)

/-- `AIAnalyzer.extract_frames_every_n_seconds` (lines 250–320), returning the
timestamps of the extracted frames.  The `for` loop over
`range(int(duration / interval) + 1)` breaks at the first timestamp past the
duration (`takeWhile`), skips failed reads (`filter`, the `continue`), and
extracts at `frame_idx * interval_seconds` seconds.  `intervalSeconds = 0`
raises `ZeroDivisionError`, caught at line 318.  `duration` is
`total_frames / fps ≥ 0` at every call site. -/
def extract_frames_every_n_seconds (cv2Available : Bool) (duration : ℚ)
    (intervalSeconds : ℕ) (readOk : ℕ → Bool) : List ℚ :=
  if !cv2Available then []
  else if intervalSeconds = 0 then []
  else
    let numFrames := (duration / (intervalSeconds : ℚ)).floor.toNat + 1
    ((((List.range numFrames).takeWhile
        (fun (i : ℕ) => decide (((i : ℚ) * (intervalSeconds : ℚ)) ≤ duration))).filter
          readOk).map
      (fun (i : ℕ) => (i : ℚ) * (intervalSeconds : ℚ)))

/-- The key-moment selection of `extract_key_frames` (lines 352–368):
start times of the first 10 transcript segments, then evenly spaced points
`i * (duration / max(1, num_frames - len(key_timestamps)))` appended when not
already present, then `sorted(set(...))[:num_frames]`. -/
def keyTimestamps (duration : ℚ) (segStarts : List ℚ) (numFrames : ℕ) : List ℚ :=
  let fromSegs := segStarts
  let interval := duration / ((max 1 (numFrames - fromSegs.length) : ℕ) : ℚ)
  let withEven := (List.range (numFrames - fromSegs.length)).foldl
    (fun ts i => if ((i : ℚ) * interval) ∈ ts then ts else ts ++ [(i : ℚ) * interval])
    fromSegs
  (withEven.toFinset.sort (· ≤ ·)).take numFrames

/-- `AIAnalyzer.extract_key_frames` (lines 322–405), transcript-guided
strategy, returning the timestamps of the extracted frames: the key-moment
timestamps with failed seeks/reads skipped (the `continue` at line 380). -/
def extract_key_frames (cv2Available : Bool) (duration : ℚ)
    (segments : List Segment) (numFrames : ℕ) (readOk : ℚ → Bool) : List ℚ :=
  if !cv2Available then []
  else
    (keyTimestamps duration ((segments.take 10).map Segment.start) numFrames).filter
      readOk

/-! ### The analysis pipeline (`AIAnalyzer.analyze_video`, lines 614–709) -/

/-- One raw observation returned by a remote analysis call (an element of the
JSON arrays parsed at lines 527–530 and 608–610). -/
structure Observation where
  practiceTitle : String
  description : String
  isPositive : Bool
  confidence : ℚ
  quote : Option String
deriving DecidableEq

/-- A transcription result as built by `transcribe_local` / `transcribe_api`
(lines 130–136 and 177–183). -/
structure TranscriptResult where
  text : String
  segments : List Segment
  language : String
  method : String
deriving DecidableEq

/-- Outcomes of every external call one run of `analyze_video` can make.
`Except.error` means the call raised. -/
structure PipelineEnv where
  /-- `extract_audio` (FFmpeg): the temp-file path, or the raised error. -/
  extractedAudio : Except String String
  /-- `transcribe_api` (OpenAI Whisper endpoint). -/
  transcribeApi : Except String TranscriptResult
  /-- `transcribe_local` (local Whisper; error = model unavailable). -/
  transcribeLocal : Except String TranscriptResult
  /-- `extract_frames_every_n_seconds` never raises (internal try/except);
  this is the base64 frame list it returns. -/
  frames : List String
  /-- The chat-completions call inside `analyze_frames_with_vision`
  (lines 519–530): parsed observation list, or the raised/unparseable error. -/
  visionCall : Except String (List Observation)
  /-- The chat-completions call inside `analyze_transcript` (lines 598–610);
  a JSON-decode failure is already `.ok []` there (line 611). -/
  transcriptCall : Except String (List Observation)
  /-- Truthiness of `self.openai_client`. -/
  openaiClient : Bool
  /-- `CV2_AVAILABLE`. -/
  cv2Available : Bool

/-- The `results` dict of `analyze_video`: keys that are set progressively are
`Option`-valued (`none` = key absent). -/
structure AnalyzeResult where
  method : String
  audioExtracted : Option Bool
  transcript : Option TranscriptResult
  framesExtracted : Option ℕ
  visualObs : Option (List Observation)
  combinedObs : Option (List Observation)
  note : Option String
  status : String
  errorDetail : Option String
deriving DecidableEq

/-- `AIAnalyzer.analyze_frames_with_vision` (lines 407–534): bail out with
`[]` when the client is missing or no frames were provided; otherwise the
remote call's parsed `visual_observations`, with any exception absorbed to
`[]` (lines 532–534).  The practice filtering and prompt assembly only shape
the request payload and are part of the environment's `visionCall`. -/
def analyzeFramesWithVision (clientAvailable : Bool) (frames : List String)
    (visionCall : Except String (List Observation)) : List Observation :=
  if !clientAvailable then []
  else if frames = [] then []
  else
    match visionCall with
    | .ok obs => obs
    | .error _ => []

/-- `AIAnalyzer.analyze_video` (lines 614–709).  Returns the `results` dict
and whether the temporary audio file still exists on disk when the function
returns.  The body's single `try/except` catches every exception, records it
in `results['status']/'error'`, and returns normally — it never re-raises.
The `if os.path.exists: os.remove` cleanup (lines 700–701) sits inside the
`try`, before `status = 'success'`, so it only runs when no step raised. -/
def analyzeVideo (env : PipelineEnv) (useEnhanced : Bool) : AnalyzeResult × Bool :=
  let base : AnalyzeResult :=
    { method := if useEnhanced then "enhanced" else "local"
      audioExtracted := none, transcript := none, framesExtracted := none
      visualObs := none, combinedObs := none, note := none
      status := "", errorDetail := none }
  -- Step 1: extract audio
  match env.extractedAudio with
  | .error e => ({ base with status := "error", errorDetail := some e }, false)
  | .ok _audioPath =>
    let r1 := { base with audioExtracted := some true }
    -- Step 2: transcribe (strategy chosen by use_enhanced)
    match (if useEnhanced then env.transcribeApi else env.transcribeLocal) with
    | .error e => ({ r1 with status := "error", errorDetail := some e }, true)
    | .ok tr =>
      let r2 := { r1 with transcript := some tr }
      -- Step 3: frames + vision (enhanced mode only)
      let step3 : AnalyzeResult × List Observation :=
        if useEnhanced && env.openaiClient && env.cv2Available then
          let frames := env.frames
          let r3 := { r2 with framesExtracted := some frames.length }
          if frames ≠ [] then
            let va := analyzeFramesWithVision env.openaiClient frames env.visionCall
            ({ r3 with visualObs := some va }, va)
          else (r3, [])
        else ({ r2 with framesExtracted := some 0, visualObs := some [] }, [])
      let r3 := step3.1
      let visual := step3.2
      -- Step 4: transcript analysis (may raise; caught by the outer except)
      let step4 : Except String (List Observation) :=
        if useEnhanced && env.openaiClient then env.transcriptCall else .ok []
      match step4 with
      | .error e => ({ r3 with status := "error", errorDetail := some e }, true)
      | .ok transcriptObs =>
        let r5 := { r3 with combinedObs := some (transcriptObs ++ visual) }
        let r6 :=
          if !useEnhanced then
            { r5 with note := some "AI analysis requires enhanced mode with OpenAI API key" }
          else r5
        -- Cleanup (inside the try), then status = success
        ({ r6 with status := "success" }, false)

/-! ### The route handler (`routes/ai_analysis.py`, `analyze_video`, lines 14–328)

The model starts after the request parsing and the video/file existence
checks (lines 26–124, which 404/early-return before any state is written).
Database commits are treated as succeeding: the inner `except` at lines
320–324 (which sets `analysis_status = 'failed'`) is therefore unreachable in
the model, because `AIAnalyzer.analyze_video` itself never raises.  The
`Transcript` table write (lines 170–189) and the audit log (lines 290–303)
have no bearing on any claim and are omitted. -/

/-- HTTP response of the handler. -/
inductive RouteResponse where
  | ok (message : String)
  | err (message : String)
deriving DecidableEq

/-- Inputs of one handler invocation. -/
structure RouteEnv where
  /-- `video.source_type == 'url'` (lines 39–101). -/
  isUrl : Bool
  /-- Whether the `requests.get` download of a URL video succeeds. -/
  downloadOk : Bool
  /-- `video.analysis_status` before the request. -/
  initialStatus : String
  analyzerEnv : PipelineEnv
  useEnhanced : Bool

/-- Observable effects of one handler invocation: the ordered
`video_metadata` progress writes, the final status fields, the response. -/
structure RouteOutcome where
  trace : List (ℕ × String)
  analysisStatus : String
  isAnalyzed : Bool
  response : RouteResponse
deriving DecidableEq

/-- Line 159: the 85% stage label depends on `results.get('frames_extracted', 0)`. -/
def stage85 (framesExtracted : ℕ) : String :=
  if 0 < framesExtracted then
    "Analyzed audio + " ++ toString framesExtracted ++ " video frames"
  else "Audio analysis complete"

/-- The handler body, lines 39–328.  A URL video is downloaded first (writing
the progress-10 metadata at line 90, or 500-ing without any write); then the
progress writes at lines 135, 143, 160/162, 166 and 286 happen in order.
`analyzer.analyze_video` returns normally even when a pipeline step raised
(its `except` swallows the exception), so the handler always proceeds to mark
the video completed and answer 200. -/
def routeAnalyze (env : RouteEnv) : RouteOutcome :=
  if env.isUrl && !env.downloadOk then
    { trace := [], analysisStatus := env.initialStatus, isAnalyzed := false
      response := .err "Failed to download video from URL" }
  else
    let t0 : List (ℕ × String) :=
      if env.isUrl then [(10, "Video downloaded, starting analysis...")] else []
    let t1 := t0 ++ [(5, "Initializing AI analysis...")]
    let t2 := t1 ++ [(15, "Transcribing audio with Whisper...")]
    let results := (analyzeVideo env.analyzerEnv env.useEnhanced).1
    let fe := results.framesExtracted.getD 0
    let t3 := t2 ++ [(85, stage85 fe), (90, "Generating annotations...")]
    let t4 := t3 ++ [(100, "Complete!")]
    { trace := t4, analysisStatus := "completed", isAnalyzed := true
      response := .ok "Video analysis completed successfully" }

/-! ### Stored annotations and re-analysis (`routes/ai_analysis.py` 191–200, 269–281) -/

/-- One row of the `Annotation` table, restricted to the columns the claims
are about; `rowId` is the primary key. -/
structure AnnRow where
  rowId : ℕ
  videoId : ℕ
  annType : String
deriving DecidableEq

/-- The filter of the query at lines 192–195. -/
def isOldAiRow (vid : ℕ) (a : AnnRow) : Bool :=
  a.videoId = vid && a.annType = "ai_generated"

/-- Lines 191–200: query the AI-generated annotations of this video and
delete each of them. -/
def deleteOldAiRows (db : List AnnRow) (vid : ℕ) : List AnnRow :=
  let old := db.filter (isOldAiRow vid)
  old.foldl (fun d a => d.erase a) db

/-- Lines 269–281: every newly created annotation is inserted with
`annotation_type='ai_generated'` for the analyzed video. -/
def reanalyzeRows (db : List AnnRow) (vid : ℕ) (newRows : List AnnRow) : List AnnRow :=
  deleteOldAiRows db vid ++ newRows

/-! ### Concrete runs used to instantiate theorems with hypotheses -/

/-- A small transcription result with one timed segment. -/
def trSample : TranscriptResult :=
  { text := "hello class today we sort shapes"
    segments := [⟨"hello class today we sort shapes".toList, 2, 4⟩]
    language := "en", method := "openai_api" }

/-- A transcript-derived observation. -/
def obsTr : Observation :=
  { practiceTitle := "Clear Instructions", description := ""
    isPositive := true, confidence := 9/10, quote := some "hello class" }

/-- A vision-derived observation. -/
def obsVi : Observation :=
  { practiceTitle := "Materials Ready", description := "materials laid out"
    isPositive := true, confidence := 8/10, quote := none }

/-- A run in which every external call succeeds. -/
def envAllOk : PipelineEnv :=
  { extractedAudio := .ok "/tmp/audio.wav"
    transcribeApi := .ok trSample
    transcribeLocal := .ok trSample
    frames := ["frameA", "frameB"]
    visionCall := .ok [obsVi]
    transcriptCall := .ok [obsTr]
    openaiClient := true
    cv2Available := true }

/-- A run in which FFmpeg audio extraction raises. -/
def envAudioFail : PipelineEnv :=
  { envAllOk with
    extractedAudio := .error "Failed to extract audio: no audio stream" }

/-- A run in which the remote transcription call raises after a successful
audio extraction. -/
def envTransFail : PipelineEnv :=
  { envAllOk with
    transcribeApi := .error "transcription request timed out" }

/-- A run in which only the vision call fails. -/
def envVisionFail : PipelineEnv :=
  { envAllOk with
    visionCall := .error "vision request failed" }

/-- A successful request on a local-source video, local (non-enhanced) mode. -/
def routeEnvLocalOk : RouteEnv :=
  { isUrl := false, downloadOk := true, initialStatus := "pending"
    analyzerEnv := envAllOk, useEnhanced := false }

/-- A successful request on a URL-source video. -/
def routeEnvUrlOk : RouteEnv :=
  { routeEnvLocalOk with isUrl := true }

/-! ### Helper lemmas -/

/-- Concrete evaluation of `round1`. -/
theorem round1_eval (x : ℚ) (n : ℤ) (h1 : (n : ℚ) ≤ 10 * x + 1/2)
    (h2 : 10 * x + 1/2 < (n : ℚ) + 1) :
    round1 x = (n : ℚ) / 10 := by
  unfold round1
  rw [Int.floor_eq_iff.mpr ⟨h1, by exact_mod_cast h2⟩]

/-- A successful segment match needs at least one segment. -/
theorem segmentMatch_ne_nil {q : List Char} {segs : List Segment} {s : ℚ}
    (h : segmentMatch q segs = some s) : segs ≠ [] := by
  intro hnil
  subst hnil
  simp [segmentMatch] at h

/-- The uniform-count loop keeps at most `numFrames - extracted` more frames. -/
theorem extractFramesGo_length_le (readOk : ℕ → Bool) (frameInterval numFrames : ℕ) :
    ∀ (l : List ℕ) (extracted : ℕ),
      (extractFramesGo readOk frameInterval numFrames extracted l).length ≤
        numFrames - extracted := by
  intro l
  induction l with
  | nil => intro ec; simp [extractFramesGo]
  | cons fc rest ih =>
    intro ec
    by_cases hec : ec < numFrames
    · by_cases hr : readOk fc = true
      · by_cases hm : fc % frameInterval = 0
        · have h2 := ih (ec + 1)
          simp only [extractFramesGo, if_pos hec, hr, if_pos hm, if_true,
            List.length_cons]
          omega
        · have h2 := ih ec
          simp only [extractFramesGo, if_pos hec, hr, if_neg hm, if_true]
          omega
      · simp [extractFramesGo, hec, hr]
    · simp [extractFramesGo, hec]

/-- The key-moment timestamps are sorted ascending (they come from
`sorted(set(...))`, truncated). -/
theorem keyTimestamps_sorted (d : ℚ) (ss : List ℚ) (n : ℕ) :
    List.Sorted (· ≤ ·) (keyTimestamps d ss n) := by
  unfold keyTimestamps
  exact List.Pairwise.sublist (List.take_sublist _ _) (Finset.sort_sorted _ _)

/-! ### Claim C4 — quote-to-segment matching -/

/-- C4 counterexample: the quote "hello" matches the first (and only) segment,
whose start time is 0.0, yet the resolver returns the distribution-fallback
value 15.0 instead of that segment's start time — the code treats a match at
0.0 as "no match" (`if start_time == 0.0` at line 263).  This refutes the
claim's "regardless of what that start time is". -/
theorem C4_counterexample :
    segmentMatch ((pyStrip "hello".toList).take 100)
        [⟨"hello world".toList, 0, 2⟩] = some 0 ∧
    pyStrip "hello".toList ≠ [] ∧
    isFillerQuote (pyStrip "hello".toList) = false ∧
    resolveStartTime "hello".toList [⟨"hello world".toList, 0, 2⟩]
        (some 30) 1 3 = 15 ∧
    (15 : ℚ) ≠ round1 0 := by
  refine ⟨by decide, by decide, by decide, ?_, ?_⟩
  · have hm : segmentMatch ((pyStrip "hello".toList).take 100)
        [⟨"hello world".toList, 0, 2⟩] = some 0 := by decide
    simp only [resolveStartTime]
    have hstart1 :
        (if ([⟨"hello world".toList, (0 : ℚ), 2⟩] : List Segment) ≠ [] ∧
            pyStrip "hello".toList ≠ [] ∧
            isFillerQuote (pyStrip "hello".toList) = false then
          match segmentMatch ((pyStrip "hello".toList).take 100)
              [⟨"hello world".toList, 0, 2⟩] with
          | some val => val
          | none => 0
        else 0) = (0 : ℚ) := by
      rw [if_pos ⟨by decide, by decide, by decide⟩, hm]
    rw [hstart1, if_pos ⟨rfl, by norm_num [durTruthy]⟩, if_pos (by norm_num)]
    have harg : ((1 : ℕ) : ℚ) / ((max 1 (3 - 1) : ℕ) : ℚ) * durVal (some 30) = 15 := by
      norm_num [durVal]
    rw [harg, round1_eval 15 150 (by norm_num) (by norm_num)]
    norm_num
  · rw [round1_eval 0 0 (by norm_num) (by norm_num)]
    norm_num

/-- C4 (amended): when the first 100 characters of a non-trivial quote occur
case-insensitively in some segment's text, the resolved start time is the
start time of the first such segment, rounded to one decimal place — provided
that start time is nonzero; a match whose start time is 0.0 falls through to
the distribution fallback. -/
theorem C4_quote_match (rawQuote : List Char) (segments : List Segment)
    (duration : Option ℚ) (annIndex totalAnnotations : ℕ) (s : ℚ)
    (hne : pyStrip rawQuote ≠ [])
    (hfill : isFillerQuote (pyStrip rawQuote) = false)
    (hmatch : segmentMatch ((pyStrip rawQuote).take 100) segments = some s)
    (hs : s ≠ 0) :
    resolveStartTime rawQuote segments duration annIndex totalAnnotations =
      round1 s := by
  have hsegs : segments ≠ [] := segmentMatch_ne_nil hmatch
  simp only [resolveStartTime]
  have hstart1 :
      (if segments ≠ [] ∧ pyStrip rawQuote ≠ [] ∧
          isFillerQuote (pyStrip rawQuote) = false then
        match segmentMatch ((pyStrip rawQuote).take 100) segments with
        | some val => val
        | none => 0
      else 0) = s := by
    rw [if_pos ⟨hsegs, hne, hfill⟩, hmatch]
  rw [hstart1, if_neg (fun hc => hs hc.1)]

/-- C4 witness: the spec's own example, with a nonzero segment start. -/
theorem C4_witness :
    resolveStartTime "the Cat Sat".toList
      [⟨"the cat sat on the mat".toList, 5, 9⟩] (some 30) 0 2 = 5 := by
  have h := C4_quote_match "the Cat Sat".toList
    [⟨"the cat sat on the mat".toList, 5, 9⟩] (some 30) 0 2 5
    (by decide) (by decide) (by decide) (by norm_num)
  rw [h, round1_eval 5 50 (by norm_num) (by norm_num)]
  norm_num

/-! ### Claim C5 — distribution fallback -/

/-- C5: when no segment matches the observation's quote, the resolver returns
`(positionIndex / max(1, totalObservations−1)) × videoDuration` rounded to one
decimal place when `totalObservations > 1` and the duration is known, and `0`
when `totalObservations = 1` or the duration is unknown. -/
theorem C5_distribution_fallback (rawQuote : List Char) (segments : List Segment)
    (duration : Option ℚ) (annIndex totalAnnotations : ℕ)
    (hnm : segmentMatch ((pyStrip rawQuote).take 100) segments = none) :
    resolveStartTime rawQuote segments duration annIndex totalAnnotations =
      round1 (match duration with
        | some d =>
          if 1 < totalAnnotations then
            (annIndex : ℚ) / ((max 1 (totalAnnotations - 1) : ℕ) : ℚ) * d
          else 0
        | none => 0) := by
  simp only [resolveStartTime]
  have hstart1 :
      (if segments ≠ [] ∧ pyStrip rawQuote ≠ [] ∧
          isFillerQuote (pyStrip rawQuote) = false then
        match segmentMatch ((pyStrip rawQuote).take 100) segments with
        | some s => s
        | none => 0
      else 0) = (0 : ℚ) := by
    split
    · rw [hnm]
    · rfl
  rw [hstart1]
  cases duration with
  | none => simp [durTruthy]
  | some d =>
    by_cases hd : d = 0
    · subst hd
      simp [durTruthy, durVal, mul_zero]
    · simp [durTruthy, durVal, hd]

/-- C5 witness: the spec's example — 4 observations, duration 30, index 2
resolves to 20.0 (and 1 observation resolves to 0.0). -/
theorem C5_witness :
    resolveStartTime [] [] (some 30) 2 4 = 20 ∧
    resolveStartTime [] [] (some 30) 0 1 = 0 := by
  constructor
  · rw [C5_distribution_fallback [] [] (some 30) 2 4 rfl]
    dsimp only
    rw [if_pos (by norm_num)]
    have harg : ((2 : ℕ) : ℚ) / ((max 1 (4 - 1) : ℕ) : ℚ) * 30 = 20 := by
      norm_num
    rw [harg, round1_eval 20 200 (by norm_num) (by norm_num)]
    norm_num
  · rw [C5_distribution_fallback [] [] (some 30) 0 1 rfl]
    dsimp only
    rw [if_neg (by norm_num), round1_eval 0 0 (by norm_num) (by norm_num)]
    norm_num

/-! ### Claim C1 — fatal errors must fail the run -/

/-- C1 (code bug, evaluation at the failing input): when audio extraction
raises, `AIAnalyzer.analyze_video` records `status = 'error'` in its result
dict, yet the route ignores that field: it still advances progress through
85/90 to 100 "Complete!", sets `analysis_status = 'completed'` /
`is_analyzed = True`, and answers HTTP 200 "Video analysis completed
successfully".  The claim (and the spec, and the route's own dead `except`
handler that would set `'failed'`) require the run to be reported Failed with
progress left at its last value. -/
theorem C1_route_completes_despite_fatal_error :
    (analyzeVideo envAudioFail true).1.status = "error" ∧
    (analyzeVideo envAudioFail true).1.errorDetail =
      some "Failed to extract audio: no audio stream" ∧
    routeAnalyze { isUrl := false, downloadOk := true, initialStatus := "pending",
                   analyzerEnv := envAudioFail, useEnhanced := true } =
      { trace := [(5, "Initializing AI analysis..."),
                  (15, "Transcribing audio with Whisper..."),
                  (85, "Audio analysis complete"),
                  (90, "Generating annotations..."),
                  (100, "Complete!")]
        analysisStatus := "completed", isAnalyzed := true
        response := .ok "Video analysis completed successfully" } :=
  ⟨rfl, rfl, rfl⟩

/-! ### Claim C2 — temporary audio file lifetime -/

/-- C2 counterexample: a run on a video whose audio extraction succeeds but
whose transcription raises leaves the temporary audio file on disk — the
`os.remove` cleanup sits inside the `try`, so the exception jumps over it. -/
theorem C2_counterexample :
    (analyzeVideo envTransFail true).1.audioExtracted = some true ∧
    (analyzeVideo envTransFail true).1.status = "error" ∧
    (analyzeVideo envTransFail true).2 = true :=
  ⟨rfl, rfl, rfl⟩

/-- C2 (amended): the temporary audio file is gone when the pipeline returns
with status success; on a run where a stage after extraction raises, the
cleanup is skipped and the file remains on disk. -/
theorem C2_cleanup_on_success (env : PipelineEnv) (useEnhanced : Bool)
    (h : (analyzeVideo env useEnhanced).1.status = "success") :
    (analyzeVideo env useEnhanced).2 = false := by
  rcases h1 : env.extractedAudio with e | p
  · simp only [analyzeVideo, h1] at h
    exact absurd h (by decide)
  · rcases h2 : (if useEnhanced then env.transcribeApi else env.transcribeLocal)
      with e | tr
    · simp only [analyzeVideo, h1, h2] at h
      exact absurd h (by decide)
    · rcases h3 : (if useEnhanced && env.openaiClient then env.transcriptCall
          else .ok []) with e | tObs
      · simp only [analyzeVideo, h1, h2, h3] at h
        exact absurd h (by decide)
      · simp only [analyzeVideo, h1, h2, h3]

/-- C2 witness: a fully successful enhanced run removes the audio file. -/
theorem C2_witness : (analyzeVideo envAllOk true).2 = false :=
  C2_cleanup_on_success envAllOk true rfl

/-! ### Claim C3 — progress checkpoints of a successful run -/

/-- C3 counterexample: on a successful local-source run, the 15% label the
route actually writes is "Transcribing audio with Whisper...", not the
claimed "Transcribing audio...".  On a successful URL-source run an extra 10%
write precedes the 5% one, so the percentages are not even non-decreasing. -/
theorem C3_counterexample :
    (routeAnalyze routeEnvLocalOk).trace.map Prod.snd =
      ["Initializing AI analysis...", "Transcribing audio with Whisper...",
       "Audio analysis complete", "Generating annotations...", "Complete!"] ∧
    ("Transcribing audio with Whisper..." : String) ≠ "Transcribing audio..." ∧
    (routeAnalyze routeEnvUrlOk).trace.map Prod.fst = [10, 5, 15, 85, 90, 100] ∧
    ¬ List.Sorted (· ≤ ·) [10, 5, 15, 85, 90, 100] :=
  ⟨rfl, by decide, rfl, by decide⟩

/-- C3 (amended): a successful run on a local-source video writes checkpoints
exactly 5, 15, 85, 90, 100 in order, never decreasing, with the claimed stage
labels except that the 15% label is "Transcribing audio with Whisper...";
a run on a URL-source video additionally writes
10 "Video downloaded, starting analysis..." before the 5% checkpoint. -/
theorem C3_progress_trace (env : RouteEnv)
    (hdl : env.isUrl = true → env.downloadOk = true) :
    (routeAnalyze env).trace =
      (if env.isUrl then [(10, "Video downloaded, starting analysis...")] else []) ++
      [(5, "Initializing AI analysis..."),
       (15, "Transcribing audio with Whisper..."),
       (85, stage85 (((analyzeVideo env.analyzerEnv env.useEnhanced).1.framesExtracted).getD 0)),
       (90, "Generating annotations..."),
       (100, "Complete!")] ∧
    (env.isUrl = false →
      (routeAnalyze env).trace.map Prod.fst = [5, 15, 85, 90, 100] ∧
      List.Sorted (· ≤ ·) ((routeAnalyze env).trace.map Prod.fst)) := by
  cases hu : env.isUrl with
  | false =>
    refine ⟨by simp [routeAnalyze, hu], fun _ => ⟨?_, ?_⟩⟩
    · simp [routeAnalyze, hu]
    · simp only [routeAnalyze, hu]
      norm_num
  | true =>
    constructor
    · simp [routeAnalyze, hu, hdl hu]
    · intro hf
      exact absurd hf (by decide)

/-- C3 witness: the amended trace at a concrete successful local-mode run. -/
theorem C3_witness :
    (routeAnalyze routeEnvLocalOk).trace =
      [(5, "Initializing AI analysis..."),
       (15, "Transcribing audio with Whisper..."),
       (85, "Audio analysis complete"),
       (90, "Generating annotations..."),
       (100, "Complete!")] := by
  have h := (C3_progress_trace routeEnvLocalOk (fun hc => absurd hc (by decide))).1
  rw [h]
  rfl

/-! ### Claim C6 — visual-analysis failure is absorbed -/

/-- C6: when the vision call raises (or its response is unparseable) but
every other stage succeeds, the run still ends with status success, zero
visual observations, and exactly the transcript-derived observations. -/
theorem C6_vision_failure_absorbed (env : PipelineEnv) (p e : String)
    (tr : TranscriptResult) (tObs : List Observation)
    (h1 : env.extractedAudio = .ok p)
    (h2 : env.transcribeApi = .ok tr)
    (h3 : env.openaiClient = true)
    (h4 : env.cv2Available = true)
    (h5 : env.frames ≠ [])
    (h6 : env.visionCall = .error e)
    (h7 : env.transcriptCall = .ok tObs) :
    (analyzeVideo env true).1.status = "success" ∧
    (analyzeVideo env true).1.visualObs = some [] ∧
    (analyzeVideo env true).1.combinedObs = some tObs := by
  simp [analyzeVideo, analyzeFramesWithVision, h1, h2, h3, h4, h5, h6, h7]

/-- C6 witness: the concrete vision-failing run. -/
theorem C6_witness :
    (analyzeVideo envVisionFail true).1.status = "success" ∧
    (analyzeVideo envVisionFail true).1.visualObs = some [] ∧
    (analyzeVideo envVisionFail true).1.combinedObs = some [obsTr] :=
  C6_vision_failure_absorbed envVisionFail "/tmp/audio.wav"
    "vision request failed" trSample [obsTr]
    rfl rfl rfl rfl (by decide) rfl rfl

/-! ### Claim C7 — frame sampling bounds and monotone timestamps -/

/-- C7: the uniform-count strategy never returns more frames than requested;
the transcript-guided strategy never returns more frames than requested; and
the timestamps of the fixed-interval and transcript-guided strategies are
non-decreasing. -/
theorem C7_sampling_invariants :
    (∀ (cv2 : Bool) (readOk : ℕ → Bool) (totalFrames numFrames : ℕ),
      (extract_frames cv2 readOk totalFrames numFrames).length ≤ numFrames) ∧
    (∀ (cv2 : Bool) (duration : ℚ) (segments : List Segment) (numFrames : ℕ)
        (readOk : ℚ → Bool),
      (extract_key_frames cv2 duration segments numFrames readOk).length ≤
        numFrames) ∧
    (∀ (cv2 : Bool) (duration : ℚ) (intervalSeconds : ℕ) (readOk : ℕ → Bool),
      List.Sorted (· ≤ ·)
        (extract_frames_every_n_seconds cv2 duration intervalSeconds readOk)) ∧
    (∀ (cv2 : Bool) (duration : ℚ) (segments : List Segment) (numFrames : ℕ)
        (readOk : ℚ → Bool),
      List.Sorted (· ≤ ·)
        (extract_key_frames cv2 duration segments numFrames readOk)) := by
  refine ⟨?_, ?_, ?_, ?_⟩
  · intro cv2 readOk totalFrames numFrames
    unfold extract_frames
    split
    · simp
    split
    · simp
    · exact le_trans
        (extractFramesGo_length_le readOk _ numFrames (List.range totalFrames) 0)
        (by omega)
  · intro cv2 duration segments numFrames readOk
    unfold extract_key_frames
    split
    · simp
    · refine le_trans (List.length_filter_le _ _) ?_
      unfold keyTimestamps
      rw [List.length_take]
      exact min_le_left _ _
  · intro cv2 duration intervalSeconds readOk
    unfold extract_frames_every_n_seconds
    split
    · simp
    split
    · simp
    · refine List.pairwise_map.mpr ?_
      have h0 := List.pairwise_le_range
        ((duration / (intervalSeconds : ℚ)).floor.toNat + 1)
      have h1 := List.Pairwise.sublist
        (List.takeWhile_sublist
          (fun (i : ℕ) => decide (((i : ℚ) * (intervalSeconds : ℚ)) ≤ duration))) h0
      have h2 := List.Pairwise.sublist
        (@List.filter_sublist ℕ readOk
          ((List.range ((duration / (intervalSeconds : ℚ)).floor.toNat + 1)).takeWhile
            (fun (i : ℕ) => decide (((i : ℚ) * (intervalSeconds : ℚ)) ≤ duration)))) h1
      exact h2.imp fun hij =>
        mul_le_mul_of_nonneg_right (by exact_mod_cast hij) (by positivity)
  · intro cv2 duration segments numFrames readOk
    unfold extract_key_frames
    split
    · simp
    · exact List.Pairwise.sublist (List.filter_sublist _)
        (keyTimestamps_sorted duration _ numFrames)

/-! ### Claim C8 — re-analysis replaces exactly the AI-generated annotations -/

/-- C8: after a re-analysis of video `vid`, a row is stored iff it is either
a pre-existing row that is not an AI-generated row of `vid`, or one of the
newly inserted rows; in particular every manually authored row (of any video)
survives and every previous AI-generated row of `vid` is gone. -/
theorem C8_reanalysis_replaces (db : List AnnRow) (vid : ℕ)
    (newRows : List AnnRow) (hnd : db.Nodup) (a : AnnRow) :
    a ∈ reanalyzeRows db vid newRows ↔
      (a ∈ db ∧ ¬(a.videoId = vid ∧ a.annType = "ai_generated")) ∨
        a ∈ newRows := by
  unfold reanalyzeRows deleteOldAiRows
  rw [← List.diff_eq_foldl, List.Nodup.diff_eq_filter hnd]
  simp only [List.mem_append, List.mem_filter, decide_not, isOldAiRow,
    Bool.not_eq_eq_eq_not, Bool.not_true, decide_eq_false_iff_not,
    List.mem_filter, Bool.and_eq_true, decide_eq_true_eq]
  constructor
  · rintro (⟨ha, hnot⟩ | hnew)
    · exact Or.inl ⟨ha, fun hc => hnot ⟨ha, hc.1, hc.2⟩⟩
    · exact Or.inr hnew
  · rintro (⟨ha, hnot⟩ | hnew)
    · exact Or.inl ⟨ha, fun hc => hnot ⟨hc.2.1, hc.2.2⟩⟩
    · exact Or.inr hnew

/-- C8 witness: on a store holding one manual and one AI row for video 7 and
one AI row for video 8, re-analysis of video 7 keeps the manual row and the
other video's row, drops video 7's old AI row, and holds the new row. -/
theorem C8_witness :
    ((⟨1, 7, "manual"⟩ : AnnRow) ∈
      reanalyzeRows [⟨0, 7, "ai_generated"⟩, ⟨1, 7, "manual"⟩,
        ⟨2, 8, "ai_generated"⟩] 7 [⟨3, 7, "ai_generated"⟩]) ∧
    ¬ ((⟨0, 7, "ai_generated"⟩ : AnnRow) ∈
      reanalyzeRows [⟨0, 7, "ai_generated"⟩, ⟨1, 7, "manual"⟩,
        ⟨2, 8, "ai_generated"⟩] 7 [⟨3, 7, "ai_generated"⟩]) := by
  constructor
  · exact (C8_reanalysis_replaces _ 7 _ (by decide) ⟨1, 7, "manual"⟩).mpr
      (Or.inl ⟨by decide, by decide⟩)
  · intro hmem
    have h := (C8_reanalysis_replaces
      [⟨0, 7, "ai_generated"⟩, ⟨1, 7, "manual"⟩, ⟨2, 8, "ai_generated"⟩] 7
      [⟨3, 7, "ai_generated"⟩] (by decide) ⟨0, 7, "ai_generated"⟩).mp hmem
    revert h
    decide

/-! ### Claim C9 — frame images are size-bounded -/

/-- C9 counterexample: a 600×1000 portrait frame passes the resize untouched
(the code only checks `width > 800`), so its longest side is 1000 > 800 —
the longest side is not capped. -/
theorem C9_counterexample :
    resizeDims 600 1000 = (600, 1000) ∧
    ¬ max (resizeDims 600 1000).1 (resizeDims 600 1000).2 ≤ 800 := by
  constructor
  · rfl
  · decide

/-- C9 (amended): every encoded frame's width is capped at 800 px and its
JPEG quality is the fixed 85; the longest side is capped at 800 only when the
frame is at least as wide as it is tall (landscape). -/
theorem C9_width_cap (w h : ℕ) :
    (resizeDims w h).1 ≤ 800 ∧
    (h ≤ w → max (resizeDims w h).1 (resizeDims w h).2 ≤ 800) ∧
    jpegQuality = 85 := by
  refine ⟨?_, ?_, rfl⟩
  · unfold resizeDims
    split
    · simp
    · omega
  · intro hle
    unfold resizeDims
    split
    · rename_i hw
      have hdiv : h * 800 / w ≤ 800 := by
        calc h * 800 / w ≤ w * 800 / w := Nat.div_le_div_right (Nat.mul_le_mul_right _ hle)
        _ = 800 := Nat.mul_div_cancel_left _ (by omega)
      simp [hdiv]
    · simp
      omega

/-- C9 witness: a 1600×900 landscape frame is capped on both sides. -/
theorem C9_witness :
    (resizeDims 1600 900).1 ≤ 800 ∧
    max (resizeDims 1600 900).1 (resizeDims 1600 900).2 ≤ 800 :=
  ⟨(C9_width_cap 1600 900).1, (C9_width_cap 1600 900).2.1 (by norm_num)⟩

/-! ### Claim C10 — local mode yields no observations and no frames -/

/-- C10: a local-mode (non-enhanced) run that ends with status success
reports an empty combined annotation list and zero frames extracted —
local mode transcribes only. -/
theorem C10_local_mode_empty (env : PipelineEnv)
    (h : (analyzeVideo env false).1.status = "success") :
    (analyzeVideo env false).1.combinedObs = some [] ∧
    (analyzeVideo env false).1.framesExtracted = some 0 := by
  rcases h1 : env.extractedAudio with e | p
  · simp only [analyzeVideo, h1] at h
    exact absurd h (by decide)
  · rcases h2 : env.transcribeLocal with e | tr
    · simp only [analyzeVideo, h1] at h ⊢
      simp only [Bool.false_eq_true, if_false, h2] at h
      exact absurd h (by decide)
    · simp only [analyzeVideo, h1] at h ⊢
      simp only [Bool.false_eq_true, if_false, h2] at h ⊢
      simp

/-- C10 witness: a concrete successful local-mode run. -/
theorem C10_witness :
    (analyzeVideo envAllOk false).1.combinedObs = some [] ∧
    (analyzeVideo envAllOk false).1.framesExtracted = some 0 :=
  C10_local_mode_empty envAllOk rfl

end StarVideoReview
